import Mathlib

set_option autoImplicit false

/-!
Verification of the budget_listing service (src/app.py) against its
natural-language specification.

The Flask/SQLAlchemy application is shallowly embedded: the relational
store becomes an explicit `DB` value holding the Transaction and Location
tables as lists, a JSON request body becomes a record of `Option` fields
(`none` = key absent), and every endpoint handler becomes a pure function
returning `Except ApiError`.  Python floats used for money amounts and
coordinates are modelled as rationals.  HTTP status codes are derived from
the error value by `httpStatus`, matching the handlers in src/app.py:
`jsonify(...), 400` for bad requests, `first_or_404` / `get_or_404` /
`abort(404, ...)` for 404, `..., 409` for conflicts, and an uncaught Python
exception (KeyError from `data['k']` on a missing key, NameError from a
reference to an undefined name) for 500.
-/

namespace BudgetListing

/-- A calendar date as stored in the `date` column (`db.Date`, no time
component): `datetime.strptime(s, "%Y-%m-%d").date()`. -/
structure Date where
  year : Nat
  month : Nat
  day : Nat
deriving DecidableEq, Repr

/-- Row of the `Transaction` table (src/app.py lines 38-51).  `created_at`
and `updated_at` are omitted: no claim under verification mentions them.
`location_id` is the foreign key to `location.name` (a String, nullable). -/
structure Transaction where
  id : Nat
  user_id : Nat
  type : String
  amount : ℚ
  category : String
  note : String
  date : Date
  currency_code : String
  currency_rate : ℚ
  time_zone : String
  location_id : Option String
deriving DecidableEq, Repr

/-- Row of the `Location` table (src/app.py lines 30-35). -/
structure Location where
  id : Nat
  name : String
  latitude : ℚ
  longitude : ℚ
deriving DecidableEq, Repr

/-- The relational store: the two tables the claims concern, plus the
autoincrement counters for their integer primary keys. -/
structure DB where
  transactions : List Transaction
  locations : List Location
  next_transaction_id : Nat
  next_location_id : Nat
deriving DecidableEq, Repr

/-- The JSON body of a transaction create/update request: `none` models an
absent key, so `data.get(k, d)` is `getD` and `data[k]` on a missing key is
a Python KeyError.  The `date` value is the already-parsed calendar date
(`strptime` format errors are outside the claims under verification). -/
structure TxData where
  type : Option String
  amount : Option ℚ
  category : Option String
  note : Option String
  date : Option Date
  currency_code : Option String
  currency_rate : Option ℚ
  time_zone : Option String
  location_id : Option String
deriving DecidableEq, Repr

/-- Error outcomes of the handlers, each mapped to the HTTP status the code
produces.  `keyError` and `nameError` are uncaught Python exceptions, which
Flask (debug off) turns into a 500 response. -/
inductive ApiError where
  | badRequest (msg : String)
  | notFound
  | conflict (msg : String)
  | keyError (key : String)
  | nameError (nm : String)
deriving DecidableEq, Repr

/-- HTTP status code of each error outcome. -/
def httpStatus : ApiError → Nat
  | .badRequest _ => 400
  | .notFound => 404
  | .conflict _ => 409
  | .keyError _ => 500
  | .nameError _ => 500

/-- Names bound at module level in src/app.py: the four `flask` imports of
line 1, the other imports of lines 2-7, and every module-level assignment
and `def`.  `abort`, called at line 131, is not among them. -/
def moduleTopLevelNames : List String :=
  ["Flask", "Blueprint", "request", "jsonify",
   "SQLAlchemy", "Bcrypt",
   "JWTManager", "create_access_token", "jwt_required", "get_jwt_identity",
   "CORS", "datetime", "timedelta", "os",
   "app", "db", "bcrypt", "jwt",
   "User", "Location", "Transaction",
   "register", "login", "me",
   "get_transactions", "get_transaction_by_id", "add_transaction",
   "update_transaction", "delete_transaction", "summary",
   "location_bp", "add_location", "get_all_locations",
   "search_locations_by_query", "update_location", "delete_location",
   "port"]

/-- Whether the name `abort` resolves in src/app.py.  It does not: line 1
imports only Flask, Blueprint, request and jsonify from flask, so the call
at line 131 raises NameError at runtime. -/
def abortDefined : Bool := moduleTopLevelNames.contains "abort"

/-- The ownership filter `Transaction.query.filter_by(id=id, user_id=user_id)`
used by the get, update and delete handlers. -/
def txMatch (id user_id : Nat) (t : Transaction) : Bool :=
  t.id == id && t.user_id == user_id

/-- GET /api/transactions (src/app.py lines 94-120): all Transactions owned
by the authenticated user.  The handler serializes each row (resolving
`t.location`); the claims only concern which rows appear, so the embedding
returns the rows. -/
def get_transactions (db : DB) (user_id : Nat) : List Transaction :=
  db.transactions.filter (fun t => t.user_id == user_id)

/-- GET /api/transactions/id (src/app.py lines 122-154).  The row is looked
up filtered by id and owner; when absent the code calls `abort(404, ...)`,
but `abort` is an undefined name (see `abortDefined`), so the branch the
code actually takes raises NameError (HTTP 500). -/
def get_transaction_by_id (db : DB) (user_id id : Nat) : Except ApiError Transaction :=
  match db.transactions.find? (txMatch id user_id) with
  | some t => Except.ok t
  | none =>
      if abortDefined then Except.error ApiError.notFound
      else Except.error (ApiError.nameError "abort")

/-- Lines 162-167 of src/app.py: `location_name = data.get('location_id')`
followed by `if location_name:` — Python truthiness, so both a missing key
and an empty string skip the lookup — and a 400 response when the lookup
by name finds no Location. -/
def locationGuard (db : DB) (location_name : Option String) : Except ApiError Unit :=
  match location_name with
  | none => Except.ok ()
  | some s =>
      if s = "" then Except.ok ()
      else
        match db.locations.find? (fun l => l.name == s) with
        | none => Except.error (ApiError.badRequest "Invalid location name")
        | some _ => Except.ok ()

/-- POST /api/transactions (src/app.py lines 156-187).  After the location
guard, the `Transaction(...)` constructor call evaluates `data['type']`,
`data['amount']`, `data['category']`, `data.get('note', '')`,
`data['date']`, then the defaulted optional fields, in that order; a
missing required key raises KeyError there, before `db.session.add`.  On
success the row is inserted with a fresh id and the handler returns 201. -/
def add_transaction (db : DB) (user_id : Nat) (data : TxData) :
    Except ApiError (DB × Nat) :=
  match locationGuard db data.location_id with
  | Except.error e => Except.error e
  | Except.ok _ =>
  match data.type with
  | none => Except.error (ApiError.keyError "type")
  | some ty =>
  match data.amount with
  | none => Except.error (ApiError.keyError "amount")
  | some am =>
  match data.category with
  | none => Except.error (ApiError.keyError "category")
  | some cat =>
  match data.date with
  | none => Except.error (ApiError.keyError "date")
  | some d =>
  Except.ok ({ db with
      transactions := db.transactions ++
        [{ id := db.next_transaction_id
           user_id := user_id
           type := ty
           amount := am
           category := cat
           note := data.note.getD ""
           date := d
           currency_code := data.currency_code.getD "IDR"
           currency_rate := data.currency_rate.getD 1
           time_zone := data.time_zone.getD "Asia/Jakarta"
           location_id := data.location_id }]
      next_transaction_id := db.next_transaction_id + 1 },
    db.next_transaction_id)

/-- Replace the first element satisfying `p` by its image under `f`: the
in-place mutation of the single ORM object returned by `.first()`. -/
def updateFirst {α : Type} (p : α → Bool) (f : α → α) : List α → List α
  | [] => []
  | x :: xs => if p x then f x :: xs else x :: updateFirst p f xs

/-- The full-field replace performed by PUT (src/app.py lines 197-205):
every column is overwritten from the request body, with `data.get` defaults
for the optional fields and `data.get('location_id')` (no existence check)
for the location reference. -/
def applyUpdate (data : TxData) (ty : String) (am : ℚ) (cat : String)
    (d : Date) (t : Transaction) : Transaction :=
  { t with
    type := ty
    amount := am
    category := cat
    note := data.note.getD ""
    date := d
    currency_code := data.currency_code.getD "IDR"
    currency_rate := data.currency_rate.getD 1
    time_zone := data.time_zone.getD "Asia/Jakarta"
    location_id := data.location_id }

/-- PUT /api/transactions/id (src/app.py lines 190-207).  `first_or_404`
on the owner-scoped query; then the assignments of lines 197-205 and a
commit.  A KeyError on a required field aborts the request before commit
(the session is rolled back at teardown), leaving the store unchanged. -/
def update_transaction (db : DB) (user_id id : Nat) (data : TxData) :
    Except ApiError DB :=
  match db.transactions.find? (txMatch id user_id) with
  | none => Except.error ApiError.notFound
  | some _ =>
  match data.type with
  | none => Except.error (ApiError.keyError "type")
  | some ty =>
  match data.amount with
  | none => Except.error (ApiError.keyError "amount")
  | some am =>
  match data.category with
  | none => Except.error (ApiError.keyError "category")
  | some cat =>
  match data.date with
  | none => Except.error (ApiError.keyError "date")
  | some d =>
  Except.ok { db with
    transactions :=
      updateFirst (txMatch id user_id) (applyUpdate data ty am cat d)
        db.transactions }

/-- DELETE /api/transactions/id (src/app.py lines 209-216): `first_or_404`
on the owner-scoped query, then the row is deleted. -/
def delete_transaction (db : DB) (user_id id : Nat) : Except ApiError DB :=
  match db.transactions.find? (txMatch id user_id) with
  | none => Except.error ApiError.notFound
  | some _ =>
      Except.ok { db with
        transactions := db.transactions.eraseP (txMatch id user_id) }

/-- Result of GET /api/transactions/summary. -/
structure SummaryResult where
  income_total : ℚ
  expense_total : ℚ
  balance : ℚ
deriving DecidableEq, Repr

/-- GET /api/transactions/summary (src/app.py lines 218-234).  `today` is
`datetime.today()`, supplying the defaults for absent `month`/`year` query
parameters; the owner's rows are filtered to the requested calendar month
and year, and the two sums and their difference are returned. -/
def summary (db : DB) (user_id : Nat) (today : Date)
    (month year : Option Nat) : SummaryResult :=
  let m := month.getD today.month
  let y := year.getD today.year
  let transactions := db.transactions.filter
    (fun t => t.user_id == user_id && t.date.month == m && t.date.year == y)
  let income_total :=
    ((transactions.filter (fun t => t.type == "income")).map
      Transaction.amount).sum
  let expense_total :=
    ((transactions.filter (fun t => t.type == "expense")).map
      Transaction.amount).sum
  { income_total := income_total
    expense_total := expense_total
    balance := income_total - expense_total }

/-- DELETE /api/locations/id (src/app.py lines 338-349): `get_or_404` by
primary key; `location.transactions` is the backref collection, i.e. the
Transactions whose `location_id` equals this Location's name; when it is
non-empty the handler returns the in-use error with status 400, otherwise
the Location is deleted. -/
def delete_location (db : DB) (id : Nat) : Except ApiError DB :=
  match db.locations.find? (fun l => l.id == id) with
  | none => Except.error ApiError.notFound
  | some location =>
      let refs := db.transactions.filter
        (fun t => t.location_id == some location.name)
      if refs.length > 0 then
        Except.error
          (ApiError.badRequest "Lokasi tidak bisa dihapus karena sedang digunakan")
      else
        Except.ok { db with
          locations := db.locations.eraseP (fun l => l.id == id) }

/-- Well-formedness maintained by the autoincrement primary key: every
stored Transaction id is below the next id to be assigned. -/
def fresh_tx_ids (db : DB) : Bool :=
  db.transactions.all (fun t => t.id < db.next_transaction_id)

/-! ### Concrete database and request fixtures

Used by the counterexample and witness theorems below.  They mirror the
scenario of the spec: a user with one income transaction of 500 dated
2024-01-15, and a location catalog holding one Location named "Mall". -/

/-- A Location named "Mall" with id 1. -/
def locMall : Location :=
  { id := 1, name := "Mall", latitude := 1, longitude := 2 }

/-- Transaction id 1 owned by user 1: income 500, salary, 2024-01-15. -/
def txA : Transaction :=
  { id := 1
    user_id := 1
    type := "income"
    amount := 500
    category := "salary"
    note := ""
    date := { year := 2024, month := 1, day := 15 }
    currency_code := "IDR"
    currency_rate := 1
    time_zone := "Asia/Jakarta"
    location_id := none }

/-- The same transaction, tagged with the Location named "Mall". -/
def txMall : Transaction := { txA with location_id := some "Mall" }

/-- An empty store. -/
def db0 : DB :=
  { transactions := [], locations := [], next_transaction_id := 1
    next_location_id := 1 }

/-- A store holding only `txA`. -/
def dbA : DB :=
  { transactions := [txA], locations := [], next_transaction_id := 2
    next_location_id := 1 }

/-- A store holding `txA` and the Location "Mall" (unreferenced). -/
def dbB : DB :=
  { transactions := [txA], locations := [locMall], next_transaction_id := 2
    next_location_id := 2 }

/-- A store where the Location "Mall" is referenced by `txMall`. -/
def dbC : DB :=
  { transactions := [txMall], locations := [locMall], next_transaction_id := 2
    next_location_id := 2 }

/-- A request body carrying only the required fields. -/
def dataReq : TxData :=
  { type := some "expense"
    amount := some 200
    category := some "food"
    note := none
    date := some { year := 2024, month := 1, day := 20 }
    currency_code := none
    currency_rate := none
    time_zone := none
    location_id := none }

/-- A request body carrying every field, referencing the Location "Mall". -/
def dataFull : TxData :=
  { type := some "expense"
    amount := some 200
    category := some "food"
    note := some "lunch"
    date := some { year := 2024, month := 1, day := 20 }
    currency_code := some "USD"
    currency_rate := some 2
    time_zone := some "UTC"
    location_id := some "Mall" }

/-- `dataReq` with the required key `category` absent. -/
def dataNoCategory : TxData := { dataReq with category := none }

/-- `dataFull` with the required key `type` absent. -/
def dataNoType : TxData := { dataFull with type := none }

/-- `dataReq` with the empty string supplied as `location_id`. -/
def dataEmptyLoc : TxData := { dataReq with location_id := some "" }

/-- `dataReq` referencing a Location name that exists in no store used
with it. -/
def dataNowhere : TxData := { dataReq with location_id := some "nowhere" }

/-- A transaction of a kind that is neither income nor expense. -/
def txTransfer : Transaction :=
  { txA with id := 9, type := "transfer", amount := 77 }

/-- The row created by `dataEmptyLoc` at the empty store: the dangling
location reference "" is stored verbatim. -/
def txEmptyLoc : Transaction :=
  { id := 1
    user_id := 1
    type := "expense"
    amount := 200
    category := "food"
    note := ""
    date := { year := 2024, month := 1, day := 20 }
    currency_code := "IDR"
    currency_rate := 1
    time_zone := "Asia/Jakarta"
    location_id := some "" }

/-- The row left by updating `txA` with `dataNowhere`: the dangling
location reference "nowhere" is stored verbatim. -/
def txNowhere : Transaction :=
  { txEmptyLoc with location_id := some "nowhere" }

/-! ### Helper lemmas -/

/-- A lookup after `updateFirst` sees the image of the row it found before,
provided that image still satisfies the search predicate. -/
theorem find?_updateFirst {α : Type} (p : α → Bool) (f : α → α) :
    ∀ (l : List α) (a : α), l.find? p = some a → p (f a) = true →
      (updateFirst p f l).find? p = some (f a) := by
  intro l
  induction l with
  | nil => intro a h _; simp [List.find?] at h
  | cons x xs ih =>
      intro a h hpf
      by_cases hx : p x = true
      · rw [List.find?_cons_of_pos _ hx] at h
        injection h with h
        subst h
        simp only [updateFirst, if_pos hx]
        exact List.find?_cons_of_pos _ hpf
      · rw [List.find?_cons_of_neg _ hx] at h
        simp only [updateFirst, if_neg hx]
        rw [List.find?_cons_of_neg _ hx]
        exact ih a h hpf

/-- After erasing the first element carrying key `k`, no element carries
`k`, provided the keys were distinct. -/
theorem eraseP_key_ne {α : Type} (f : α → Nat) (k : Nat) :
    ∀ l : List α, (l.map f).Nodup →
      ∀ x ∈ l.eraseP (fun a => f a == k), f x ≠ k := by
  intro l
  induction l with
  | nil => intro _ x hx; simp [List.eraseP] at hx
  | cons y ys ih =>
      intro hnd x hx
      rw [List.map_cons, List.nodup_cons] at hnd
      by_cases hy : (f y == k) = true
      · rw [List.eraseP_cons, hy] at hx
        simp only [cond_true] at hx
        intro hxk
        apply hnd.1
        have hfy : f y = k := eq_of_beq hy
        rw [hfy, ← hxk]
        exact List.mem_map_of_mem f hx
      · have hy' : (f y == k) = false := by
          cases hfy : (f y == k)
          · rfl
          · exact absurd hfy hy
        rw [List.eraseP_cons, hy'] at hx
        simp only [cond_false] at hx
        rcases List.mem_cons.mp hx with h | h
        · subst h; exact beq_eq_false_iff_ne.mp hy'
        · exact ih hnd.2 x h

/-! ### Claims -/

/-- Claim C1: for every user and every month/year pair (each defaulting to
the current calendar date when unsupplied), `summary` returns income_total
equal to the sum of amounts of that user's transactions of kind "income"
dated in that calendar month and year, expense_total equal to the matching
sum for kind "expense", and balance equal to income_total minus
expense_total; transactions of other users or dated in other months/years
are excluded from all three by the filters. -/
theorem C1_summary_totals (db : DB) (uid : Nat) (today : Date)
    (m? y? : Option Nat) :
    (summary db uid today m? y?).income_total
      = ((db.transactions.filter (fun t =>
            t.user_id == uid && t.type == "income"
              && (t.date.month == m?.getD today.month
                    && t.date.year == y?.getD today.year))).map
          Transaction.amount).sum
  ∧ (summary db uid today m? y?).expense_total
      = ((db.transactions.filter (fun t =>
            t.user_id == uid && t.type == "expense"
              && (t.date.month == m?.getD today.month
                    && t.date.year == y?.getD today.year))).map
          Transaction.amount).sum
  ∧ (summary db uid today m? y?).balance
      = (summary db uid today m? y?).income_total
          - (summary db uid today m? y?).expense_total := by
  have hb : ∀ a b c d : Bool, (a && ((b && c) && d)) = ((b && a) && (c && d)) := by
    decide
  refine ⟨?_, ?_, ?_⟩
  · simp only [summary, List.filter_filter]
    congr 1
    congr 1
    exact List.filter_congr (fun t _ => hb _ _ _ _)
  · simp only [summary, List.filter_filter]
    congr 1
    congr 1
    exact List.filter_congr (fun t _ => hb _ _ _ _)
  · simp [summary]

/-- Claim C9: a transaction whose kind is neither "income" nor "expense"
contributes to neither total: prepending such a transaction to the store
leaves the whole summary — both totals and hence the balance — unchanged,
even when the transaction is owned by the querying user and dated in the
queried month and year. -/
theorem C9_other_kinds_ignored (db : DB) (uid : Nat) (today : Date)
    (m? y? : Option Nat) (t : Transaction)
    (hinc : t.type ≠ "income") (hexp : t.type ≠ "expense") :
    summary { db with transactions := t :: db.transactions } uid today m? y?
      = summary db uid today m? y? := by
  have hinc' : (t.type == "income") = false := beq_eq_false_iff_ne.mpr hinc
  have hexp' : (t.type == "expense") = false := beq_eq_false_iff_ne.mpr hexp
  by_cases h : (t.user_id == uid && t.date.month == m?.getD today.month
      && t.date.year == y?.getD today.year) = true
  · simp [summary, List.filter_cons, h, hinc', hexp']
  · simp [summary, List.filter_cons, h]

/-- Witness for C9: prepending a "transfer" transaction owned by user 1 and
dated in the queried month leaves user 1's summary for 2024-01 unchanged. -/
theorem C9_other_kinds_ignored_witness :
    txTransfer.type ≠ "income" ∧ txTransfer.type ≠ "expense"
  ∧ summary { dbA with transactions := txTransfer :: dbA.transactions } 1
        { year := 2024, month := 1, day := 31 } (some 1) (some 2024)
      = summary dbA 1 { year := 2024, month := 1, day := 31 } (some 1)
          (some 2024) :=
  ⟨by decide, by decide,
    C9_other_kinds_ignored dbA 1 { year := 2024, month := 1, day := 31 }
      (some 1) (some 2024) txTransfer (by decide) (by decide)⟩

/-- Claim C2, evaluated at the concrete store `dbA` holding transaction 1
owned by user 1.  Three of the four verbs behave as claimed for user 2:
list excludes the row, update and delete fail as not-found (404) and
return no modified store.  The fourth does not: user 2's get fails with a
NameError — line 131 of src/app.py calls `abort`, which line 1 never
imports — surfacing as HTTP 500 instead of the claimed not-found.  The row
is still neither observed nor affected. -/
theorem C2_cross_user_isolation :
    get_transactions dbA 2 = []
  ∧ update_transaction dbA 2 1 dataReq = Except.error ApiError.notFound
  ∧ delete_transaction dbA 2 1 = Except.error ApiError.notFound
  ∧ get_transaction_by_id dbA 2 1 = Except.error (ApiError.nameError "abort")
  ∧ httpStatus (ApiError.nameError "abort") = 500 :=
  ⟨rfl, rfl, rfl, rfl, rfl⟩

/-- Claim C7, evaluated at `dbA`: a get for an id owned by another user and
a get for an id that exists nowhere produce the very same outcome, so no
existence is leaked across users — but that outcome is a NameError (HTTP
500) from the unimported `abort`, not the 404 the comment at src/app.py
line 130 announces. -/
theorem C7_get_not_found_outcome :
    get_transaction_by_id dbA 1 7 = Except.error (ApiError.nameError "abort")
  ∧ get_transaction_by_id dbA 2 1 = get_transaction_by_id dbA 1 7
  ∧ abortDefined = false
  ∧ httpStatus (ApiError.nameError "abort") = 500
  ∧ httpStatus ApiError.notFound = 404 :=
  ⟨rfl, rfl, rfl, rfl, rfl⟩

/-- Claim C3 is false as stated: at the empty store, a create request
missing the required field `category` fails with an uncaught KeyError
surfacing as HTTP 500, not with a ValidationError (HTTP 400). -/
theorem C3_counterexample :
    add_transaction db0 1 dataNoCategory
      = Except.error (ApiError.keyError "category")
  ∧ httpStatus (ApiError.keyError "category") = 500
  ∧ httpStatus (ApiError.keyError "category") ≠ 400 :=
  ⟨rfl, rfl, by decide⟩

/-- Claim C3 as amended: when any of the required fields `type`, `amount`,
`category`, `date` is missing (and the location guard, which runs first,
passes), create fails before any mutation with an uncaught KeyError — an
HTTP 500, not the claimed ValidationError 400 — and, being an error
outcome, persists no Transaction. -/
theorem C3_missing_required_field (db : DB) (uid : Nat) (data : TxData)
    (hloc : locationGuard db data.location_id = Except.ok ())
    (hmiss : data.type = none ∨ data.amount = none ∨ data.category = none
      ∨ data.date = none) :
    ∃ k, add_transaction db uid data = Except.error (ApiError.keyError k)
      ∧ httpStatus (ApiError.keyError k) = 500 := by
  rcases hty : data.type with _ | ty
  · exact ⟨"type", by simp [add_transaction, hloc, hty], rfl⟩
  rcases ham : data.amount with _ | am
  · exact ⟨"amount", by simp [add_transaction, hloc, hty, ham], rfl⟩
  rcases hcat : data.category with _ | cat
  · exact ⟨"category", by simp [add_transaction, hloc, hty, ham, hcat], rfl⟩
  rcases hd : data.date with _ | d
  · exact ⟨"date", by simp [add_transaction, hloc, hty, ham, hcat, hd], rfl⟩
  simp [hty, ham, hcat, hd] at hmiss

/-- Witness for the amended C3: at `dbB` the request `dataNoType` resolves
its location "Mall" but lacks `type`, so create fails with a KeyError. -/
theorem C3_missing_required_field_witness :
    locationGuard dbB dataNoType.location_id = Except.ok ()
  ∧ dataNoType.type = none
  ∧ ∃ k, add_transaction dbB 1 dataNoType = Except.error (ApiError.keyError k)
      ∧ httpStatus (ApiError.keyError k) = 500 :=
  ⟨rfl, rfl, C3_missing_required_field dbB 1 dataNoType rfl (Or.inl rfl)⟩

/-- Claim C4 is false as stated: `dataEmptyLoc` supplies the location
identifier "" and the empty store holds no Location at all — in particular
none named "" — yet the create succeeds rather than failing with a
ValidationError: Python truthiness makes `if location_name:` skip the
lookup for the empty string, and the row is persisted carrying the
dangling reference "". -/
theorem C4_counterexample :
    db0.locations = []
  ∧ add_transaction db0 1 dataEmptyLoc
      = Except.ok ({ db0 with
          transactions := [txEmptyLoc]
          next_transaction_id := 2 }, 1)
  ∧ txEmptyLoc.location_id = some "" :=
  ⟨rfl, rfl, rfl⟩

/-- Claim C4 as amended, restricted to a nonempty location identifier
`s`: when no Location named `s` exists the create fails with the 400
"Invalid location name" response and persists nothing; when one exists and
the required fields are present, the create succeeds and the persisted
transaction carries the reference `s`, the name of an existing Location. -/
theorem C4_location_guard (db : DB) (uid : Nat) (data : TxData) (s : String)
    (hs : data.location_id = some s) (hne : s ≠ "") :
    (db.locations.find? (fun l => l.name == s) = none →
       add_transaction db uid data
         = Except.error (ApiError.badRequest "Invalid location name"))
  ∧ (∀ loc ty am cat d,
       db.locations.find? (fun l => l.name == s) = some loc →
       data.type = some ty → data.amount = some am →
       data.category = some cat → data.date = some d →
       add_transaction db uid data
         = Except.ok ({ db with
             transactions := db.transactions ++
               [{ id := db.next_transaction_id
                  user_id := uid
                  type := ty
                  amount := am
                  category := cat
                  note := data.note.getD ""
                  date := d
                  currency_code := data.currency_code.getD "IDR"
                  currency_rate := data.currency_rate.getD 1
                  time_zone := data.time_zone.getD "Asia/Jakarta"
                  location_id := some s }]
             next_transaction_id := db.next_transaction_id + 1 },
           db.next_transaction_id)
       ∧ loc ∈ db.locations ∧ loc.name = s) := by
  constructor
  · intro hfind
    simp [add_transaction, locationGuard, hs, hne, hfind]
  · intro loc ty am cat d hfind hty ham hcat hd
    have hp := List.find?_some hfind
    simp only [beq_iff_eq] at hp
    refine ⟨?_, List.mem_of_find?_eq_some hfind, hp⟩
    simp [add_transaction, locationGuard, hs, hne, hfind, hty, ham, hcat, hd]

/-- Witness for the amended C4 at `dbB`: creating with `dataFull`, whose
location identifier "Mall" names an existing Location, succeeds and stores
the reference. -/
theorem C4_location_guard_witness :
    dataFull.location_id = some "Mall"
  ∧ ("Mall" : String) ≠ ""
  ∧ dbB.locations.find? (fun l => l.name == "Mall") = some locMall
  ∧ add_transaction dbB 1 dataFull
      = Except.ok ({ dbB with
          transactions := dbB.transactions ++
            [{ id := 2
               user_id := 1
               type := "expense"
               amount := 200
               category := "food"
               note := "lunch"
               date := { year := 2024, month := 1, day := 20 }
               currency_code := "USD"
               currency_rate := 2
               time_zone := "UTC"
               location_id := some "Mall" }]
          next_transaction_id := 3 }, 2)
  ∧ locMall ∈ dbB.locations ∧ locMall.name = "Mall" :=
  ⟨rfl, by decide, rfl,
    (C4_location_guard dbB 1 dataFull "Mall" rfl (by decide)).2 locMall
      "expense" 200 "food" { year := 2024, month := 1, day := 20 } rfl rfl
      rfl rfl rfl⟩

/-- Claim C5 is false as stated: at `dbA`, whose location catalog is
empty, updating transaction 1 with `dataNowhere` — whose location
identifier "nowhere" resolves to no Location — succeeds instead of failing
with a ValidationError, and rewrites the row to carry the dangling
reference. -/
theorem C5_counterexample :
    dbA.locations = []
  ∧ update_transaction dbA 1 1 dataNowhere
      = Except.ok { dbA with transactions := [txNowhere] }
  ∧ txNowhere.location_id = some "nowhere" :=
  ⟨rfl, rfl, rfl⟩

/-- Claim C5 as amended: update applies no location validation.  With the
target row present and owned by the caller and the required fields
supplied, an update carrying a location identifier `s` that resolves to no
existing Location nonetheless succeeds, and the row it leaves behind
references `s`. -/
theorem C5_update_skips_location_check (db : DB) (uid i : Nat)
    (data : TxData) (t : Transaction) (ty : String) (am : ℚ) (cat : String)
    (d : Date) (s : String)
    (hfind : db.transactions.find? (txMatch i uid) = some t)
    (hty : data.type = some ty) (ham : data.amount = some am)
    (hcat : data.category = some cat) (hd : data.date = some d)
    (hs : data.location_id = some s)
    (_hnoloc : db.locations.find? (fun l => l.name == s) = none) :
    update_transaction db uid i data
      = Except.ok { db with
          transactions := updateFirst (txMatch i uid)
            (applyUpdate data ty am cat d) db.transactions }
  ∧ (updateFirst (txMatch i uid) (applyUpdate data ty am cat d)
        db.transactions).find? (txMatch i uid)
      = some (applyUpdate data ty am cat d t)
  ∧ (applyUpdate data ty am cat d t).location_id = some s := by
  refine ⟨?_, ?_, ?_⟩
  · simp [update_transaction, hfind, hty, ham, hcat, hd]
  · apply find?_updateFirst _ _ _ _ hfind
    have hp := List.find?_some hfind
    simpa [txMatch, applyUpdate] using hp
  · simp [applyUpdate, hs]

/-- Witness for the amended C5 at `dbA` (empty location catalog): the
update with `dataNowhere` succeeds and stores the unresolvable name. -/
theorem C5_update_skips_location_check_witness :
    dbA.transactions.find? (txMatch 1 1) = some txA
  ∧ dbA.locations.find? (fun l => l.name == "nowhere") = none
  ∧ update_transaction dbA 1 1 dataNowhere
      = Except.ok { dbA with
          transactions := updateFirst (txMatch 1 1)
            (applyUpdate dataNowhere "expense" 200 "food"
              { year := 2024, month := 1, day := 20 }) dbA.transactions }
  ∧ (applyUpdate dataNowhere "expense" 200 "food"
        { year := 2024, month := 1, day := 20 } txA).location_id
      = some "nowhere" :=
  ⟨rfl, rfl,
    (C5_update_skips_location_check dbA 1 1 dataNowhere txA "expense" 200
      "food" { year := 2024, month := 1, day := 20 } "nowhere" rfl rfl rfl
      rfl rfl rfl rfl).1,
    (C5_update_skips_location_check dbA 1 1 dataNowhere txA "expense" 200
      "food" { year := 2024, month := 1, day := 20 } "nowhere" rfl rfl rfl
      rfl rfl rfl rfl).2.2⟩

/-- Claim C6 is false as stated on the status code: at `dbC`, where
transaction 1 references the Location "Mall", deleting that Location fails
with the in-use message — but with HTTP status 400, not the 409 the error
taxonomy assigns to ConflictError. -/
theorem C6_counterexample :
    delete_location dbC 1
      = Except.error
          (ApiError.badRequest "Lokasi tidak bisa dihapus karena sedang digunakan")
  ∧ httpStatus
      (ApiError.badRequest "Lokasi tidak bisa dihapus karena sedang digunakan")
      = 400
  ∧ httpStatus
      (ApiError.badRequest "Lokasi tidak bisa dihapus karena sedang digunakan")
      ≠ 409 :=
  ⟨rfl, rfl, by decide⟩

/-- Claim C6 as amended: with the target Location present (and primary
keys distinct), deleting it with zero referencing transactions succeeds
and the resulting catalog holds no Location with the deleted id, while
deleting it with at least one referencing transaction fails with the
in-use error — whose HTTP status in this code is 400, not the 409 of the
error taxonomy — and, being an error outcome, leaves the store
unmodified, so the Location remains present. -/
theorem C6_delete_location_in_use (db : DB) (i : Nat) (loc : Location)
    (hfind : db.locations.find? (fun l => l.id == i) = some loc)
    (hnd : (db.locations.map Location.id).Nodup) :
    ((db.transactions.filter (fun t => t.location_id == some loc.name)) = [] →
       delete_location db i
         = Except.ok { db with
             locations := db.locations.eraseP (fun l => l.id == i) }
       ∧ ∀ l ∈ db.locations.eraseP (fun l => l.id == i), l.id ≠ i)
  ∧ (0 < (db.transactions.filter
        (fun t => t.location_id == some loc.name)).length →
       delete_location db i
         = Except.error
             (ApiError.badRequest
               "Lokasi tidak bisa dihapus karena sedang digunakan")
       ∧ httpStatus
           (ApiError.badRequest
             "Lokasi tidak bisa dihapus karena sedang digunakan")
           = 400) := by
  constructor
  · intro hrefs
    refine ⟨?_, eraseP_key_ne Location.id i db.locations hnd⟩
    simp [delete_location, hfind, hrefs]
  · intro hrefs
    refine ⟨?_, rfl⟩
    simp [delete_location, hfind, hrefs]

/-- Witness for the amended C6 at `dbB`: the Location "Mall" is referenced
by no transaction, so deleting it succeeds and removes it. -/
theorem C6_delete_location_in_use_witness :
    dbB.locations.find? (fun l => l.id == 1) = some locMall
  ∧ (dbB.locations.map Location.id).Nodup
  ∧ (dbB.transactions.filter (fun t => t.location_id == some locMall.name)) = []
  ∧ delete_location dbB 1
      = Except.ok { dbB with
          locations := dbB.locations.eraseP (fun l => l.id == 1) }
  ∧ ∀ l ∈ dbB.locations.eraseP (fun l => l.id == 1), l.id ≠ 1 :=
  ⟨rfl, by decide, rfl,
    (C6_delete_location_in_use dbB 1 locMall rfl (by decide)).1 rfl⟩

/-- Claim C8: round-trip.  When create succeeds — required fields present,
location guard passing — on a store whose stored ids are all below the
next id to be assigned, an immediate get by the returned id yields exactly
the created row: every supplied field as supplied, and every omitted
optional field at its default (`getD` applies the default exactly when the
field was omitted): note "", currency_code "IDR", currency_rate 1,
time_zone "Asia/Jakarta", and a null location reference. -/
theorem C8_round_trip (db : DB) (uid : Nat) (data : TxData) (ty : String)
    (am : ℚ) (cat : String) (d : Date)
    (hfresh : fresh_tx_ids db = true)
    (hloc : locationGuard db data.location_id = Except.ok ())
    (hty : data.type = some ty) (ham : data.amount = some am)
    (hcat : data.category = some cat) (hd : data.date = some d) :
    ∃ db',
      add_transaction db uid data = Except.ok (db', db.next_transaction_id)
      ∧ get_transaction_by_id db' uid db.next_transaction_id
          = Except.ok
              { id := db.next_transaction_id
                user_id := uid
                type := ty
                amount := am
                category := cat
                note := data.note.getD ""
                date := d
                currency_code := data.currency_code.getD "IDR"
                currency_rate := data.currency_rate.getD 1
                time_zone := data.time_zone.getD "Asia/Jakarta"
                location_id := data.location_id } := by
  refine ⟨{ db with
      transactions := db.transactions ++
        [{ id := db.next_transaction_id
           user_id := uid
           type := ty
           amount := am
           category := cat
           note := data.note.getD ""
           date := d
           currency_code := data.currency_code.getD "IDR"
           currency_rate := data.currency_rate.getD 1
           time_zone := data.time_zone.getD "Asia/Jakarta"
           location_id := data.location_id }]
      next_transaction_id := db.next_transaction_id + 1 }, ?_, ?_⟩
  · simp [add_transaction, hloc, hty, ham, hcat, hd]
  · have hnone : db.transactions.find?
        (txMatch db.next_transaction_id uid) = none := by
      rw [List.find?_eq_none]
      intro u hu
      have hu' : u.id < db.next_transaction_id := by
        have h := (List.all_eq_true.mp hfresh) u hu
        simpa using h
      simp only [txMatch, Bool.and_eq_true, beq_iff_eq, not_and]
      intro hid
      exact absurd hid (Nat.ne_of_lt hu')
    simp [get_transaction_by_id, List.find?_append, hnone, List.find?_cons,
      txMatch]

/-- Witness for C8 at `dbB` with `dataReq`, which omits every optional
field: the fetched row carries all the defaults and a null location. -/
theorem C8_round_trip_witness :
    fresh_tx_ids dbB = true
  ∧ locationGuard dbB dataReq.location_id = Except.ok ()
  ∧ ∃ db',
      add_transaction dbB 1 dataReq = Except.ok (db', dbB.next_transaction_id)
      ∧ get_transaction_by_id db' 1 dbB.next_transaction_id
          = Except.ok
              { id := dbB.next_transaction_id
                user_id := 1
                type := "expense"
                amount := 200
                category := "food"
                note := dataReq.note.getD ""
                date := { year := 2024, month := 1, day := 20 }
                currency_code := dataReq.currency_code.getD "IDR"
                currency_rate := dataReq.currency_rate.getD 1
                time_zone := dataReq.time_zone.getD "Asia/Jakarta"
                location_id := dataReq.location_id } :=
  ⟨by decide, rfl,
    C8_round_trip dbB 1 dataReq "expense" 200 "food"
      { year := 2024, month := 1, day := 20 } (by decide) rfl rfl rfl rfl rfl⟩

/-- Claim C10: an update omitting every optional field resets them to the
defaults rather than keeping the stored values: the target row keeps only
the supplied required fields and gets note "", currency_code "IDR",
currency_rate 1, time_zone "Asia/Jakarta" and a null location reference —
in particular an update omitting location_id silently detaches the row
from its Location. -/
theorem C10_update_resets_optionals (db : DB) (uid i : Nat) (data : TxData)
    (t : Transaction) (ty : String) (am : ℚ) (cat : String) (d : Date)
    (hfind : db.transactions.find? (txMatch i uid) = some t)
    (hty : data.type = some ty) (ham : data.amount = some am)
    (hcat : data.category = some cat) (hd : data.date = some d)
    (hnote : data.note = none) (hcc : data.currency_code = none)
    (hcr : data.currency_rate = none) (htz : data.time_zone = none)
    (hloc : data.location_id = none) :
    update_transaction db uid i data
      = Except.ok { db with
          transactions := updateFirst (txMatch i uid)
            (applyUpdate data ty am cat d) db.transactions }
  ∧ (updateFirst (txMatch i uid) (applyUpdate data ty am cat d)
        db.transactions).find? (txMatch i uid)
      = some { t with
          type := ty
          amount := am
          category := cat
          note := ""
          date := d
          currency_code := "IDR"
          currency_rate := 1
          time_zone := "Asia/Jakarta"
          location_id := none } := by
  refine ⟨?_, ?_⟩
  · simp [update_transaction, hfind, hty, ham, hcat, hd]
  · have happ : applyUpdate data ty am cat d t
        = { t with
            type := ty
            amount := am
            category := cat
            note := ""
            date := d
            currency_code := "IDR"
            currency_rate := 1
            time_zone := "Asia/Jakarta"
            location_id := none } := by
      simp [applyUpdate, hnote, hcc, hcr, htz, hloc]
    rw [← happ]
    apply find?_updateFirst _ _ _ _ hfind
    have hp := List.find?_some hfind
    simpa [txMatch, applyUpdate] using hp

/-- Witness for C10 at `dbC`: transaction 1 is attached to the Location
"Mall"; updating it with `dataReq`, which omits `location_id` and every
other optional field, detaches it and restores every default. -/
theorem C10_update_resets_optionals_witness :
    dbC.transactions.find? (txMatch 1 1) = some txMall
  ∧ txMall.location_id = some "Mall"
  ∧ update_transaction dbC 1 1 dataReq
      = Except.ok { dbC with
          transactions := updateFirst (txMatch 1 1)
            (applyUpdate dataReq "expense" 200 "food"
              { year := 2024, month := 1, day := 20 }) dbC.transactions }
  ∧ (updateFirst (txMatch 1 1)
        (applyUpdate dataReq "expense" 200 "food"
          { year := 2024, month := 1, day := 20 }) dbC.transactions).find?
        (txMatch 1 1)
      = some { txMall with
          type := "expense"
          amount := 200
          category := "food"
          note := ""
          date := { year := 2024, month := 1, day := 20 }
          currency_code := "IDR"
          currency_rate := 1
          time_zone := "Asia/Jakarta"
          location_id := none } :=
  ⟨rfl, rfl,
    (C10_update_resets_optionals dbC 1 1 dataReq txMall "expense" 200 "food"
      { year := 2024, month := 1, day := 20 } rfl rfl rfl rfl rfl rfl rfl rfl
      rfl rfl).1,
    (C10_update_resets_optionals dbC 1 1 dataReq txMall "expense" 200 "food"
      { year := 2024, month := 1, day := 20 } rfl rfl rfl rfl rfl rfl rfl rfl
      rfl rfl).2⟩

end BudgetListing
